import Mathlib

/-!
Verification development for the trendbit-cleaner normalization pipeline.

The pipeline normalizes heterogeneous social-media scraper exports
(Instagram, TikTok, Reddit) into one canonical record schema with derived
engagement metrics.  This file gives a shallow embedding of the Python
source (src/instagram_cleaner.py, src/tiktok_cleaner.py,
src/reddit_cleaner.py, src/app.py) and proves properties of it.

Modelling conventions:
* A scalar cell value is `Val`: `null` models both Python `None` and the
  pandas/numpy missing sentinels (`NaN`/`NaT`); `num q` models Python
  ints and floats as exact rationals; `str s` models Python strings.
* A raw record is an association list `Row`; a pandas `DataFrame` is a
  `DF`: an explicit column list plus the rows.  Building a DataFrame from
  a list of dicts (`pd.DataFrame(items)`) takes the union of the keys in
  first-appearance order and fills missing keys of a row with `null`.
* Instants are rationals (seconds since the Unix epoch, UTC).
* Series operations (`apply`, `fillna`, `clip`, arithmetic) are modelled
  element-wise; `errors="coerce"` failure is `Option.none`.
-/

set_option allowUnsafeReducibility true
attribute [local semireducible] Rat.add Rat.mul Rat.inv Rat.sub Rat.ofScientific

inductive Val where
  | null
  | num (q : ℚ)
  | str (s : String)
deriving Repr, DecidableEq

/-- A raw input record: association list from source field name to value. -/
abbrev Row := List (String × Val)

/-- First-match association lookup (a dict/Series row access). -/
def rowGet : Row → String → Option Val
  | [], _ => none
  | (k, v) :: t, c => if k = c then some v else rowGet t c

/-- A DataFrame: explicit column list plus rows.  A key absent from a row
of an existing column reads as missing (pandas fills it with NaN). -/
structure DF where
  cols : List String
  rows : List Row
deriving Repr, DecidableEq

/-- Model of a per-row read of `df.get(c, default-valued series)`: the
column value if the column exists in the frame, else the default. -/
def dfRowGet (cols : List String) (r : Row) (c : String) (dflt : Val) : Val :=
  if c ∈ cols then (rowGet r c).getD Val.null else dflt

/-- Column union in first-appearance order, as `pd.DataFrame(items)`
builds its columns from a list of dicts. -/
def dfColumns (items : List Row) : List String :=
  items.foldl (fun acc r => r.foldl (fun a kv => if kv.1 ∈ a then a else a ++ [kv.1]) acc) []

/-- Model of `pd.DataFrame(items)` for a list of dict records. -/
def mkDF (items : List Row) : DF :=
  { cols := dfColumns items, rows := items }

/-! ### Character-list string primitives

Core `String` functions such as `String.trim` are defined by recursion on
byte positions and do not reduce in the kernel, so the Python string
operations are modelled directly on the character list of a `String`. -/

/-- Python `str.strip()` (also the stripping `float()` itself performs). -/
def pyTrim (s : String) : String :=
  String.mk (((s.data.dropWhile Char.isWhitespace).reverse.dropWhile Char.isWhitespace).reverse)

/-- Python `s.lstrip("#")`: remove every leading `'#'`. -/
def lstripHash (s : String) : String :=
  String.mk (s.data.dropWhile (fun c => c = '#'))

/-- ASCII lower-casing of one character (Python `str.lower()` on the
ASCII fragment that field names and tags use). -/
def lowerChar (c : Char) : Char :=
  if 'A' ≤ c ∧ c ≤ 'Z' then Char.ofNat (c.toNat + 32) else c

/-- Python `str.lower()`. -/
def pyLower (s : String) : String :=
  String.mk (s.data.map lowerChar)

/-- Character-list prefix test. -/
def listIsPre : List Char → List Char → Bool
  | [], _ => true
  | _ :: _, [] => false
  | a :: as, b :: bs => a = b && listIsPre as bs

/-- Python `s.startswith(p)` on strings. -/
def strStarts (s p : String) : Bool :=
  listIsPre p.data s.data

/-- Python `s.endswith(p)` on strings. -/
def strEnds (s p : String) : Bool :=
  listIsPre p.data.reverse s.data.reverse

/-- Python `", ".join(parts)`. -/
def joinWith (sep : String) : List String → String
  | [] => ""
  | [a] => a
  | a :: rest => a ++ sep ++ joinWith sep rest

/-- Python `str()` rendering of a non-missing scalar (numeric rendering is
abstracted; every claim-relevant path renders strings or nulls). -/
def pyStr : Val → String
  | Val.null => "nan"
  | Val.num q => if q.den = 1 then toString q.num else toString q
  | Val.str s => s

/-- Model of `series.fillna("")` followed by string rendering. -/
def strFill : Val → String
  | Val.null => ""
  | v => pyStr v

/-- Model of `series.astype(str)` rendering: renders the missing sentinel as the
string "nan", as pandas does. -/
def valAstypeStr : Val → String
  | Val.null => "nan"
  | v => pyStr v

/-! ### Python `float()` on strings -/

/-- Longest leading run of decimal digits. -/
def takeDigits : List Char → List Char × List Char
  | [] => ([], [])
  | c :: t =>
    if c.isDigit then
      let p := takeDigits t
      (c :: p.1, p.2)
    else ([], c :: t)

def digitsToNat (l : List Char) : ℕ :=
  l.foldl (fun a c => 10 * a + (c.toNat - 48)) 0

/-- Core of Python `float()` string parsing: optional sign, decimal
mantissa (digits, optional point, optional fraction digits), optional
exponent; the whole input must be consumed.  `inf`/`nan` literals are
folded into the failure case (every use in the source either raises on
them later, inside the same `try`, or falls through identically). -/
def pythonFloatCore (cs : List Char) : Option ℚ :=
  let sp : ℚ × List Char :=
    match cs with
    | '-' :: t => (-1, t)
    | '+' :: t => (1, t)
    | _ => (1, cs)
  let ipp := takeDigits sp.2
  let frp : Bool × List Char × List Char :=
    match ipp.2 with
    | '.' :: t =>
      let p := takeDigits t
      (true, p.1, p.2)
    | _ => (false, [], ipp.2)
  if ipp.1.isEmpty && (!frp.1 || frp.2.1.isEmpty) then none
  else
    let mant : ℚ := (digitsToNat ipp.1 : ℚ) + (digitsToNat frp.2.1 : ℚ) / (10 : ℚ) ^ frp.2.1.length
    match frp.2.2 with
    | [] => some (sp.1 * mant)
    | e :: t =>
      if e = 'e' ∨ e = 'E' then
        let ep : Bool × List Char :=
          match t with
          | '-' :: u => (true, u)
          | '+' :: u => (false, u)
          | _ => (false, t)
        let edp := takeDigits ep.2
        if edp.1.isEmpty ∨ ¬ edp.2.isEmpty then none
        else
          some (sp.1 * mant *
            (if ep.1 then 1 / (10 : ℚ) ^ digitsToNat edp.1 else (10 : ℚ) ^ digitsToNat edp.1))
      else none

/-- Python `float()` applied to a string (leading/trailing whitespace is
stripped by `float` itself). -/
def pythonFloat? (s : String) : Option ℚ :=
  pythonFloatCore (pyTrim s).data

/-- Python `int()` on a float: truncation toward zero. -/
def truncQ (q : ℚ) : Int :=
  q.num.tdiv q.den

/-- Python `x.replace(",", "")`: remove every comma. -/
def stripCommas (s : String) : String :=
  String.mk (s.data.filter (fun c => c ≠ ','))

/-- The `to_int` of the source (identical in instagram_cleaner.py,
tiktok_cleaner.py, reddit_cleaner.py and app.py): missing stays missing;
strings have commas removed and are stripped; then `int(float(x))`;
any failure degrades to missing. -/
def to_int (x : Val) : Option Int :=
  match x with
  | Val.null => none
  | Val.num q => some (truncQ q)
  | Val.str s =>
    match pythonFloat? (pyTrim (stripCommas s)) with
    | some q => some (truncQ q)
    | none => none


/-! ### Timestamp parsing

Instants are rationals: seconds since the Unix epoch (UTC).  The pandas
timestamp machinery is modelled on the fragment the source exercises:
`pd.to_datetime(v, unit="ms"/"s", utc=True, errors="coerce")` divides an
epoch count into seconds, and the generic
`pd.to_datetime(x, utc=True, errors="coerce")` interprets a bare number
as an epoch count in pandas' default unit of nanoseconds, parses an
ISO-format string, and coerces anything unparseable to missing. -/

/-- Fixed-width decimal number read. -/
def parseNatFixed (cs : List Char) (n : ℕ) : Option (ℕ × List Char) :=
  let ds := cs.take n
  if ds.length = n ∧ ds.all Char.isDigit then some (digitsToNat ds, cs.drop n) else none

/-- Days from the epoch for a civil date (proleptic Gregorian calendar,
standard civil-from-days construction; all intermediate quantities are
nonnegative for the post-1583 dates the formats admit). -/
def daysFromCivil (y m d : ℤ) : ℤ :=
  let y2 := y - (if m ≤ 2 then 1 else 0)
  let era := y2 / 400
  let yoe := y2 - era * 400
  let mp := (m + 9) % 12
  let doy := (153 * mp + 2) / 5 + d - 1
  let doe := yoe * 365 + yoe / 4 - yoe / 100 + doy
  era * 146097 + doe - 719468

/-- Parse `HH:MM:SS`, returning seconds into the day. -/
def parseTimePart (cs : List Char) : Option (ℕ × List Char) :=
  match parseNatFixed cs 2 with
  | none => none
  | some (hh, r1) =>
    match r1 with
    | ':' :: r2 =>
      match parseNatFixed r2 2 with
      | none => none
      | some (mi, r3) =>
        match r3 with
        | ':' :: r4 =>
          match parseNatFixed r4 2 with
          | none => none
          | some (ss, r5) =>
            if hh ≤ 23 ∧ mi ≤ 59 ∧ ss ≤ 59 then some (hh * 3600 + mi * 60 + ss, r5) else none
        | _ => none
    | _ => none

/-- Model of generic `pd.to_datetime` string parsing, on the ISO fragment
`YYYY-MM-DD`, optionally followed by `T` or a space and `HH:MM:SS`, with
an optional trailing `Z`; anything else fails (and `errors="coerce"`
turns the failure into missing). -/
def pdParseStr (s : String) : Option ℚ :=
  let cs := (pyTrim s).data
  match parseNatFixed cs 4 with
  | none => none
  | some (y, r1) =>
    match r1 with
    | '-' :: r2 =>
      match parseNatFixed r2 2 with
      | none => none
      | some (mo, r3) =>
        match r3 with
        | '-' :: r4 =>
          match parseNatFixed r4 2 with
          | none => none
          | some (d, r5) =>
            if 1 ≤ mo ∧ mo ≤ 12 ∧ 1 ≤ d ∧ d ≤ 31 ∧ 1583 ≤ y then
              let base : ℚ := (daysFromCivil (y : ℤ) (mo : ℤ) (d : ℤ) * 86400 : ℤ)
              match r5 with
              | [] => some base
              | c :: r6 =>
                if c = 'T' ∨ c = ' ' then
                  match parseTimePart r6 with
                  | none => none
                  | some (secs, r7) =>
                    match r7 with
                    | [] => some (base + (secs : ℚ))
                    | ['Z'] => some (base + (secs : ℚ))
                    | _ => none
                else none
            else none
        | _ => none
    | _ => none

/-- Generic `pd.to_datetime(x, utc=True, errors="coerce")` on a scalar:
missing stays missing, a bare number is an epoch count in the default
nanosecond unit, a string goes through date-string parsing. -/
def pd_to_datetime_generic (x : Val) : Option ℚ :=
  match x with
  | Val.null => none
  | Val.num q => some (q / 10 ^ 9)
  | Val.str s => pdParseStr s

/-- The `parse_timestamp` of the source (identical in instagram_cleaner.py,
tiktok_cleaner.py, reddit_cleaner.py and app.py): missing stays missing;
otherwise `float(x)` is attempted, a value above 1e12 is Unix
milliseconds and a value above 1e9 is Unix seconds (both via `int(xv)`);
anything else falls through to the generic string parser. -/
def parse_timestamp (x : Val) : Option ℚ :=
  match x with
  | Val.null => none
  | Val.num q =>
    if q > 10 ^ 12 then some ((truncQ q : ℚ) / 1000)
    else if q > 10 ^ 9 then some ((truncQ q : ℚ))
    else pd_to_datetime_generic x
  | Val.str s =>
    match pythonFloat? s with
    | some q =>
      if q > 10 ^ 12 then some ((truncQ q : ℚ) / 1000)
      else if q > 10 ^ 9 then some ((truncQ q : ℚ))
      else pd_to_datetime_generic x
    | none => pd_to_datetime_generic x


/-! ### Tag joining -/

/-- Case-insensitive order-preserving deduplication: keep a tag when its
lower-casing has not been seen yet (the `seen` set of the source). -/
def dedupCIAux : List String → List String → List String
  | _, [] => []
  | seen, t :: rest =>
    if pyLower t ∈ seen then dedupCIAux seen rest
    else t :: dedupCIAux (pyLower t :: seen) rest

def dedupCI (l : List String) : List String :=
  dedupCIAux [] l

/-- The `norm_str` of reddit_cleaner.py: missing becomes empty, everything
else is rendered and stripped. -/
def norm_str (x : Val) : String :=
  match x with
  | Val.null => ""
  | v => pyTrim (pyStr v)

/-- The `join_tags` of reddit_cleaner.py: normalize each value, skip empty
ones, strip every leading `#`, dedupe case-insensitively preserving
first-seen order and casing, join with a comma and space. -/
def join_tags (vals : List Val) : String :=
  let tags := vals.filterMap (fun x =>
    let v := norm_str x
    if v = "" then none else some (lstripHash v))
  joinWith ", " (dedupCI tags)

/-- The `join_hashtags` of instagram_cleaner.py and app.py: for each hashtag
column, keep present values with nonempty strip, strip leading `#`,
dedupe case-insensitively, join with a comma and space. -/
def join_hashtags (r : Row) (hashtag_cols : List String) : String :=
  let tags := hashtag_cols.filterMap (fun c =>
    match (rowGet r c).getD Val.null with
    | Val.null => none
    | v => if pyTrim (pyStr v) = "" then none else some (lstripHash (pyTrim (pyStr v))))
  joinWith ", " (dedupCI tags)

/-- The `join_list_fields` of tiktok_cleaner.py: like `join_hashtags`, with
`#`-stripping controlled by a flag. -/
def join_list_fields (r : Row) (cs : List String) (strip_hash : Bool) : String :=
  let vals := cs.filterMap (fun c =>
    match (rowGet r c).getD Val.null with
    | Val.null => none
    | v =>
      let s := pyTrim (pyStr v)
      if s = "" then none else some (if strip_hash then lstripHash s else s))
  joinWith ", " (dedupCI vals)


/-- Modelled from the spec's words, for refinement comparison only: as
`join_tags`, but stripping at most a single leading `#`. -/
def join_tags_single_strip (vals : List Val) : String :=
  let tags := vals.filterMap (fun x =>
    let v := norm_str x
    if v = "" then none
    else some (if strStarts v "#" then String.mk v.data.tail else v))
  joinWith ", " (dedupCI tags)

/-! ### Canonical records and the platform adapters

A finalized output row.  `timestamp` holds the parsed instant (its fixed
ISO rendering is injective, so record equality is unaffected);
`hours_since_post` is an `Option` because two of the adapters leave it
missing when the timestamp does not parse; `creator_followers` is an
`Option` because the Instagram CSV adapter leaves it missing. -/
structure CRec where
  platform : String
  caption : String
  text : String
  hashtags : String
  creator : String
  creator_fullname : String
  creator_followers : Option Int
  timestamp : Option ℚ
  url : String
  likes : Int
  comments : Int
  shares : Int
  plays : Int
  saves : Int
  upvotes : Int
  engagement_score : ℚ
  hours_since_post : Option ℚ
  velocity : ℚ
  audio_name : String
  category : String
deriving Repr, DecidableEq

/-- Model of `clean.drop_duplicates(subset=["url"], keep="first")`: keep the first
record for each url value, in input order. -/
def dedupByUrlAux : List String → List CRec → List CRec
  | _, [] => []
  | seen, r :: t =>
    if r.url ∈ seen then dedupByUrlAux seen t
    else r :: dedupByUrlAux (r.url :: seen) t

def dedupByUrl (l : List CRec) : List CRec :=
  dedupByUrlAux [] l

/-- The url column choice of clean_instagram_df (and, written as nested
`df.get` defaults, of app.py's clean_instagram_items): the first of
`url`, `displayUrl`, `videoUrl` present in the frame's columns. -/
def igUrlCol (cols : List String) : Option String :=
  if "url" ∈ cols then some "url"
  else if "displayUrl" ∈ cols then some "displayUrl"
  else if "videoUrl" ∈ cols then some "videoUrl"
  else none

/-- The loop-with-break over plays candidates in clean_instagram_df and
app.py: the first candidate column present in the frame. -/
def firstColIn : List String → List String → Option String
  | [], _ => none
  | c :: t, cols => if c ∈ cols then some c else firstColIn t cols

def igPlaysCol (cols : List String) : Option String :=
  firstColIn ["videoPlayCount", "igPlayCount", "fbPlayCount"] cols

/-- One row of `clean_instagram_df` (instagram_cleaner.py), before the
URL dedup step. -/
def igRow (cols : List String) (cat : String) (now : ℚ) (r : Row) : CRec :=
  let hcols := cols.filter (fun c => strStarts c "hashtags/")
  let caption := strFill (dfRowGet cols r "caption" Val.null)
  let creator := strFill (dfRowGet cols r "ownerUsername" Val.null)
  let creatorFull := strFill (dfRowGet cols r "ownerFullName" Val.null)
  let urlV := match igUrlCol cols with
    | some c => (rowGet r c).getD Val.null
    | none => Val.null
  let likes := (to_int (dfRowGet cols r "likesCount" Val.null)).getD 0
  let comments := (to_int (dfRowGet cols r "commentsCount" Val.null)).getD 0
  let shares := (to_int (dfRowGet cols r "reshareCount" (Val.num 0))).getD 0
  let saves : Int := 0
  let plays := (match igPlaysCol cols with
    | some c => to_int ((rowGet r c).getD Val.null)
    | none => some 0).getD 0
  let audio := strFill (dfRowGet cols r "musicInfo/song_name" Val.null)
  let ts := parse_timestamp (dfRowGet cols r "timestamp" Val.null)
  let hashtags := if hcols.isEmpty then "" else join_hashtags r hcols
  let upvotes : Int := 0
  let hrs := (ts.map (fun t => (now - t) / 3600)).map (fun h => max h (1 / 100))
  let denom : Int := if plays = 0 then 1 else plays
  let score : ℚ := ((likes + 2 * comments + 3 * shares + 2 * saves + upvotes : Int) : ℚ) / (denom : ℚ)
  let total : Int := likes + comments + shares + saves + upvotes
  let vel : ℚ := match hrs with
    | some h => (total : ℚ) / h
    | none => 0
  { platform := "instagram", caption := caption, text := caption,
    hashtags := hashtags, creator := creator, creator_fullname := creatorFull,
    creator_followers := none, timestamp := ts, url := strFill urlV,
    likes := likes, comments := comments, shares := shares, plays := plays,
    saves := saves, upvotes := upvotes, engagement_score := score,
    hours_since_post := hrs, velocity := vel, audio_name := audio,
    category := cat }

/-- The `clean_instagram_df` of instagram_cleaner.py: per-row field resolution
followed by the `DEDUP_BY_URL` (always on) first-wins URL dedup. -/
def clean_instagram_df (df : DF) (cat : String) (now : ℚ) : List CRec :=
  dedupByUrl (df.rows.map (igRow df.cols cat now))

/-- One row of app.py's `clean_instagram_items`.  It differs from
`igRow` in three places that match the source: `hours_since_post` is
`fillna(0)`-ed before the clip (so it is never missing),
`creator_followers` is coerced to an integer with missing resolved to 0,
and the velocity divides by that always-present hours value. -/
def appIgRow (cols : List String) (cat : String) (now : ℚ) (r : Row) : CRec :=
  let hcols := cols.filter (fun c => strStarts c "hashtags/")
  let caption := strFill (dfRowGet cols r "caption" Val.null)
  let creator := strFill (dfRowGet cols r "ownerUsername" Val.null)
  let creatorFull := strFill (dfRowGet cols r "ownerFullName" Val.null)
  let urlV := match igUrlCol cols with
    | some c => (rowGet r c).getD Val.null
    | none => Val.null
  let likes := (to_int (dfRowGet cols r "likesCount" Val.null)).getD 0
  let comments := (to_int (dfRowGet cols r "commentsCount" Val.null)).getD 0
  let shares := (to_int (dfRowGet cols r "reshareCount" (Val.num 0))).getD 0
  let saves : Int := 0
  let plays := (match igPlaysCol cols with
    | some c => to_int ((rowGet r c).getD Val.null)
    | none => some 0).getD 0
  let audio := strFill (dfRowGet cols r "musicInfo/song_name" Val.null)
  let ts := parse_timestamp (dfRowGet cols r "timestamp" Val.null)
  let hashtags := if hcols.isEmpty then "" else join_hashtags r hcols
  let upvotes : Int := 0
  let hrs : ℚ := max ((ts.map (fun t => (now - t) / 3600)).getD 0) (1 / 100)
  let denom : Int := if plays = 0 then 1 else plays
  let score : ℚ := ((likes + 2 * comments + 3 * shares + 2 * saves + upvotes : Int) : ℚ) / (denom : ℚ)
  let total : Int := likes + comments + shares + saves + upvotes
  let vel : ℚ := (total : ℚ) / hrs
  { platform := "instagram", caption := caption, text := caption,
    hashtags := hashtags, creator := creator, creator_fullname := creatorFull,
    creator_followers := some 0, timestamp := ts, url := strFill urlV,
    likes := likes, comments := comments, shares := shares, plays := plays,
    saves := saves, upvotes := upvotes, engagement_score := score,
    hours_since_post := some hrs, velocity := vel, audio_name := audio,
    category := cat }

/-- The `clean_instagram_items` of app.py: empty input short-circuits to an
empty output, otherwise the DataFrame built from the items is cleaned
row-wise and URL-deduped. -/
def clean_instagram_items (items : List Row) (cat : String) (now : ℚ) : List CRec :=
  if items.isEmpty then []
  else dedupByUrl (items.map (appIgRow (dfColumns items) cat now))

/-- The filled primary TikTok url of a row:
`df.get("webVideoUrl", Series([""])).fillna("")`. -/
def ttPrimaryUrl (cols : List String) (r : Row) : String :=
  strFill (dfRowGet cols r "webVideoUrl" (Val.str ""))

/-- One row of `clean_tiktok_df` (tiktok_cleaner.py).  `useId` is the
batch-level `(url == "").all() and "id" in df.columns` switch that
replaces the url column with the stringified id column. -/
def ttRow (cols : List String) (useId : Bool) (cat : String) (now : ℚ) (r : Row) : CRec :=
  let hcols := cols.filter (fun c => strStarts c "hashtags/" && strEnds c "/name")
  let text := strFill (dfRowGet cols r "text" (Val.str ""))
  let creator := strFill (dfRowGet cols r "authorMeta/name" (Val.str ""))
  let creatorFull := strFill (dfRowGet cols r "authorMeta/nickName" (Val.str ""))
  let followers := to_int (dfRowGet cols r "authorMeta/fans" Val.null)
  let url := if useId then valAstypeStr ((rowGet r "id").getD Val.null) else ttPrimaryUrl cols r
  let tsV := if "createTimeISO" ∈ cols then (rowGet r "createTimeISO").getD Val.null
             else dfRowGet cols r "createTime" Val.null
  let ts := parse_timestamp tsV
  let likes := (to_int (dfRowGet cols r "diggCount" Val.null)).getD 0
  let comments := (to_int (dfRowGet cols r "commentCount" Val.null)).getD 0
  let shares := (to_int (dfRowGet cols r "shareCount" Val.null)).getD 0
  let plays := (to_int (dfRowGet cols r "playCount" Val.null)).getD 0
  let saves := (to_int (dfRowGet cols r "collectCount" Val.null)).getD 0
  let upvotes : Int := 0
  let hashtags := if hcols.isEmpty then "" else join_list_fields r hcols true
  let audio := strFill (dfRowGet cols r "musicMeta/musicName" (Val.str ""))
  let hrs : ℚ := max ((ts.map (fun t => (now - t) / 3600)).getD 0) (1 / 100)
  let denom : Int := if plays = 0 then 1 else plays
  let score : ℚ := ((likes + 2 * comments + 3 * shares + 2 * saves + upvotes : Int) : ℚ) / (denom : ℚ)
  let total : Int := likes + comments + shares + saves + upvotes
  let vel : ℚ := (total : ℚ) / hrs
  { platform := "tiktok", caption := text, text := text, hashtags := hashtags,
    creator := creator, creator_fullname := creatorFull,
    creator_followers := some (followers.getD 0), timestamp := ts, url := url,
    likes := likes, comments := comments, shares := shares, plays := plays,
    saves := saves, upvotes := upvotes, engagement_score := score,
    hours_since_post := some hrs, velocity := vel, audio_name := audio,
    category := cat }

/-- The batch-level `(url == "").all() and "id" in df.columns` switch of
clean_tiktok_df. -/
def ttUseId (cols : List String) (rows : List Row) : Bool :=
  rows.all (fun r => ttPrimaryUrl cols r == "") && "id" ∈ cols

/-- The `clean_tiktok_df` of tiktok_cleaner.py: empty frames short-circuit;
otherwise per-row resolution with the batch-level id-fallback switch,
then the first-wins URL dedup. -/
def clean_tiktok_df (df : DF) (cat : String) (now : ℚ) : List CRec :=
  if df.rows.isEmpty then []
  else dedupByUrl (df.rows.map (ttRow df.cols (ttUseId df.cols df.rows) cat now))

/-- The `clean_tiktok_items` of tiktok_cleaner.py. -/
def clean_tiktok_items (items : List Row) (cat : String) (now : ℚ) : List CRec :=
  if items.isEmpty then [] else clean_tiktok_df (mkDF items) cat now

/-- One row of `clean_reddit_df` (reddit_cleaner.py). -/
def rdRow (cols : List String) (cat : String) (now : ℚ) (r : Row) : CRec :=
  let title := strFill (dfRowGet cols r "title" Val.null)
  let body := strFill (dfRowGet cols r "body" Val.null)
  let descr := strFill (dfRowGet cols r "description" Val.null)
  let caption1 := if pyTrim title ≠ "" then title
    else strFill (dfRowGet cols r "displayName" (Val.str ""))
  let caption := if pyTrim caption1 ≠ "" then caption1
    else strFill (dfRowGet cols r "communityName" (Val.str ""))
  let text0 := pyTrim (pyTrim title ++ "\n\n" ++ pyTrim body)
  let text := if text0 ≠ "" then text0 else descr
  let hashtags := join_tags [dfRowGet cols r "flair" Val.null, dfRowGet cols r "communityName" Val.null]
  let creator := strFill (dfRowGet cols r "username" Val.null)
  let urlV := dfRowGet cols r "url" Val.null
  let urlV2 := if "link" ∈ cols then
      (if urlV ≠ Val.null ∧ pyTrim (pyStr urlV) ≠ "" then urlV else (rowGet r "link").getD Val.null)
    else urlV
  let url := strFill urlV2
  let ts0 := parse_timestamp (dfRowGet cols r "createdAt" Val.null)
  let ts := if "scrapedAt" ∈ cols then
      (match ts0 with
       | none => parse_timestamp ((rowGet r "scrapedAt").getD Val.null)
       | some t => some t)
    else ts0
  let upvotes := (to_int (dfRowGet cols r "upVotes" (Val.num 0))).getD 0
  let likes := upvotes
  let comments := (to_int (dfRowGet cols r "numberOfComments" (Val.num 0))).getD 0
  let shares : Int := 0
  let plays : Int := 0
  let saves : Int := 0
  let hrs := (ts.map (fun t => (now - t) / 3600)).map (fun h => max h (1 / 100))
  let denom : Int := if plays = 0 then 1 else plays
  let score : ℚ := ((likes + 2 * comments + 3 * shares + 2 * saves + upvotes : Int) : ℚ) / (denom : ℚ)
  let total : Int := likes + comments + shares + saves + upvotes
  let vel : ℚ := match hrs with
    | some h => (total : ℚ) / h
    | none => 0
  { platform := "reddit", caption := caption, text := text, hashtags := hashtags,
    creator := creator, creator_fullname := "", creator_followers := none,
    timestamp := ts, url := url, likes := likes, comments := comments,
    shares := shares, plays := plays, saves := saves, upvotes := upvotes,
    engagement_score := score, hours_since_post := hrs, velocity := vel,
    audio_name := "", category := cat }

/-- The `clean_reddit_df` of reddit_cleaner.py: per-row resolution only — the
source file applies NO URL deduplication. -/
def clean_reddit_df (df : DF) (cat : String) (now : ℚ) : List CRec :=
  df.rows.map (rdRow df.cols cat now)

/-- The `clean_reddit_items` of reddit_cleaner.py. -/
def clean_reddit_items (items : List Row) (cat : String) (now : ℚ) : List CRec :=
  if items.isEmpty then [] else clean_reddit_df (mkDF items) cat now

/-! ### Properties of the URL deduplication -/

theorem mem_of_mem_dedupByUrlAux {r : CRec} :
    ∀ (l : List CRec) (seen : List String), r ∈ dedupByUrlAux seen l → r ∈ l := by
  intro l
  induction l with
  | nil => intro seen h; simp [dedupByUrlAux] at h
  | cons a t ih =>
    intro seen h
    simp only [dedupByUrlAux] at h
    by_cases ha : a.url ∈ seen
    · rw [if_pos ha] at h
      exact List.mem_cons_of_mem _ (ih _ h)
    · rw [if_neg ha] at h
      rcases List.mem_cons.mp h with rfl | h
      · exact List.mem_cons_self _ _
      · exact List.mem_cons_of_mem _ (ih _ h)

theorem mem_of_mem_dedupByUrl {r : CRec} {l : List CRec} (h : r ∈ dedupByUrl l) : r ∈ l :=
  mem_of_mem_dedupByUrlAux l [] h

/-- After dedup the url values are pairwise distinct, and none of them is
in the already-seen set. -/
theorem dedupByUrlAux_spec :
    ∀ (l : List CRec) (seen : List String),
      ((dedupByUrlAux seen l).map (fun r => r.url)).Nodup
        ∧ ∀ r ∈ dedupByUrlAux seen l, r.url ∉ seen := by
  intro l
  induction l with
  | nil => intro seen; simp [dedupByUrlAux]
  | cons a t ih =>
    intro seen
    by_cases ha : a.url ∈ seen
    · simpa [dedupByUrlAux, ha] using ih seen
    · have h2 := ih (a.url :: seen)
      refine ⟨?_, ?_⟩
      · simp only [dedupByUrlAux, if_neg ha, List.map_cons, List.nodup_cons]
        refine ⟨?_, h2.1⟩
        intro hmem
        rcases List.mem_map.mp hmem with ⟨r, hr, hurl⟩
        exact (h2.2 r hr) (hurl ▸ List.mem_cons_self _ _)
      · intro r hr
        simp only [dedupByUrlAux, if_neg ha, List.mem_cons] at hr
        rcases hr with rfl | hr
        · exact ha
        · exact fun hseen => (h2.2 r hr) (List.mem_cons_of_mem _ hseen)

theorem dedupByUrl_url_nodup (l : List CRec) :
    ((dedupByUrl l).map (fun r => r.url)).Nodup :=
  (dedupByUrlAux_spec l []).1

/-- Dedup keeps, for each url value not yet seen, exactly the first
record in input order carrying it. -/
theorem dedupByUrlAux_find? :
    ∀ (l : List CRec) (seen : List String) (u : String), u ∉ seen →
      (dedupByUrlAux seen l).find? (fun r => r.url == u)
        = l.find? (fun r => r.url == u) := by
  intro l
  induction l with
  | nil => intro seen u _; rfl
  | cons a t ih =>
    intro seen u hu
    by_cases hau : a.url = u
    · have hb : (fun r : CRec => r.url == u) a = true := beq_iff_eq.mpr hau
      by_cases ha : a.url ∈ seen
      · exact absurd (hau ▸ ha) hu
      · simp only [dedupByUrlAux, if_neg ha]
        rw [List.find?_cons_of_pos (p := fun r : CRec => r.url == u) _ hb,
          List.find?_cons_of_pos (p := fun r : CRec => r.url == u) _ hb]
    · have hb : (fun r : CRec => r.url == u) a = false := beq_eq_false_iff_ne.mpr hau
      by_cases ha : a.url ∈ seen
      · simp only [dedupByUrlAux, if_pos ha]
        rw [List.find?_cons_of_neg (p := fun r : CRec => r.url == u) _ (by simp [hb]), ih _ _ hu]
      · simp only [dedupByUrlAux, if_neg ha]
        rw [List.find?_cons_of_neg (p := fun r : CRec => r.url == u) _ (by simp [hb]),
          List.find?_cons_of_neg (p := fun r : CRec => r.url == u) _ (by simp [hb])]
        exact ih _ _ (by
          intro hmem
          rcases List.mem_cons.mp hmem with h | h
          · exact hau h.symm
          · exact hu h)

theorem dedupByUrl_find? (l : List CRec) (u : String) :
    (dedupByUrl l).find? (fun r => r.url == u) = l.find? (fun r => r.url == u) :=
  dedupByUrlAux_find? l [] u (by simp)

/-- At most one record per url value survives the dedup. -/
theorem dedupByUrlAux_filter_len :
    ∀ (l : List CRec) (seen : List String) (u : String),
      ((dedupByUrlAux seen l).filter (fun r => r.url == u)).length ≤ 1
        ∧ (u ∈ seen → ((dedupByUrlAux seen l).filter (fun r => r.url == u)).length = 0) := by
  intro l
  induction l with
  | nil => intro seen u; simp [dedupByUrlAux]
  | cons a t ih =>
    intro seen u
    by_cases ha : a.url ∈ seen
    · simpa [dedupByUrlAux, if_pos ha] using ih seen u
    · simp only [dedupByUrlAux, if_neg ha]
      by_cases hau : a.url = u
      · have hb : (fun r : CRec => r.url == u) a = true := beq_iff_eq.mpr hau
        have hz := (ih (a.url :: seen) u).2 (hau ▸ List.mem_cons_self _ _)
        constructor
        · rw [List.filter_cons_of_pos (p := fun r : CRec => r.url == u) hb]
          simp [hz]
        · intro hu
          exact absurd (hau ▸ hu) ha
      · have hb : (fun r : CRec => r.url == u) a = false := beq_eq_false_iff_ne.mpr hau
        rw [List.filter_cons_of_neg (p := fun r : CRec => r.url == u) (by simp [hb])]
        refine ⟨(ih (a.url :: seen) u).1, fun hu => (ih (a.url :: seen) u).2 (List.mem_cons_of_mem _ hu)⟩

theorem dedupByUrl_filter_len (l : List CRec) (u : String) :
    ((dedupByUrl l).filter (fun r => r.url == u)).length ≤ 1 :=
  (dedupByUrlAux_filter_len l [] u).1

/-- Removing a record whose url already occurred earlier does not change
the dedup result. -/
theorem dedupByUrlAux_drop :
    ∀ (l1 : List CRec) (seen : List String) (x : CRec) (l2 : List CRec),
      (x.url ∈ seen ∨ x.url ∈ l1.map (fun r => r.url)) →
      dedupByUrlAux seen (l1 ++ x :: l2) = dedupByUrlAux seen (l1 ++ l2) := by
  intro l1
  induction l1 with
  | nil =>
    intro seen x l2 h
    rcases h with h | h
    · simp only [List.nil_append, dedupByUrlAux, if_pos h]
    · simp at h
  | cons a t ih =>
    intro seen x l2 h
    simp only [List.cons_append, dedupByUrlAux]
    by_cases ha : a.url ∈ seen
    · rw [if_pos ha, if_pos ha]
      apply ih
      rcases h with h | h
      · exact Or.inl h
      · simp only [List.map_cons, List.mem_cons] at h
        rcases h with h | h
        · exact Or.inl (h ▸ ha)
        · exact Or.inr h
    · rw [if_neg ha, if_neg ha]
      congr 1
      apply ih
      rcases h with h | h
      · exact Or.inl (List.mem_cons_of_mem _ h)
      · simp only [List.map_cons, List.mem_cons] at h
        rcases h with h | h
        · exact Or.inl (h ▸ List.mem_cons_self _ _)
        · exact Or.inr h

/-! ### Membership and per-row unfolding lemmas for the adapters -/

theorem mem_clean_instagram_df {r : CRec} {df : DF} {cat : String} {now : ℚ}
    (h : r ∈ clean_instagram_df df cat now) :
    ∃ row ∈ df.rows, r = igRow df.cols cat now row := by
  rcases List.mem_map.mp (mem_of_mem_dedupByUrl h) with ⟨row, hrow, heq⟩
  exact ⟨row, hrow, heq.symm⟩

theorem mem_clean_instagram_items {r : CRec} {items : List Row} {cat : String} {now : ℚ}
    (h : r ∈ clean_instagram_items items cat now) :
    ∃ row ∈ items, r = appIgRow (dfColumns items) cat now row := by
  unfold clean_instagram_items at h
  by_cases he : items.isEmpty
  · rw [if_pos he] at h
    simp at h
  · rw [if_neg he] at h
    rcases List.mem_map.mp (mem_of_mem_dedupByUrl h) with ⟨row, hrow, heq⟩
    exact ⟨row, hrow, heq.symm⟩

theorem mem_clean_tiktok_df {r : CRec} {df : DF} {cat : String} {now : ℚ}
    (h : r ∈ clean_tiktok_df df cat now) :
    ∃ row ∈ df.rows, r = ttRow df.cols (ttUseId df.cols df.rows) cat now row := by
  unfold clean_tiktok_df at h
  by_cases he : df.rows.isEmpty
  · rw [if_pos he] at h
    simp at h
  · rw [if_neg he] at h
    rcases List.mem_map.mp (mem_of_mem_dedupByUrl h) with ⟨row, hrow, heq⟩
    exact ⟨row, hrow, heq.symm⟩

theorem mem_clean_reddit_df {r : CRec} {df : DF} {cat : String} {now : ℚ}
    (h : r ∈ clean_reddit_df df cat now) :
    ∃ row ∈ df.rows, r = rdRow df.cols cat now row := by
  rcases List.mem_map.mp h with ⟨row, hrow, heq⟩
  exact ⟨row, hrow, heq.symm⟩

/-- The engagement-score formula, read off the Instagram row builder. -/
theorem igRow_score (cols : List String) (cat : String) (now : ℚ) (r : Row) :
    (igRow cols cat now r).engagement_score =
      (((igRow cols cat now r).likes + 2 * (igRow cols cat now r).comments
          + 3 * (igRow cols cat now r).shares + 2 * (igRow cols cat now r).saves
          + (igRow cols cat now r).upvotes : Int) : ℚ)
        / ((if (igRow cols cat now r).plays = 0 then 1 else (igRow cols cat now r).plays : Int) : ℚ) :=
  rfl

theorem igRow_vel (cols : List String) (cat : String) (now : ℚ) (r : Row) :
    (igRow cols cat now r).velocity =
      match (igRow cols cat now r).hours_since_post with
      | some h => (((igRow cols cat now r).likes + (igRow cols cat now r).comments
          + (igRow cols cat now r).shares + (igRow cols cat now r).saves
          + (igRow cols cat now r).upvotes : Int) : ℚ) / h
      | none => 0 :=
  rfl

theorem appIgRow_score (cols : List String) (cat : String) (now : ℚ) (r : Row) :
    (appIgRow cols cat now r).engagement_score =
      (((appIgRow cols cat now r).likes + 2 * (appIgRow cols cat now r).comments
          + 3 * (appIgRow cols cat now r).shares + 2 * (appIgRow cols cat now r).saves
          + (appIgRow cols cat now r).upvotes : Int) : ℚ)
        / ((if (appIgRow cols cat now r).plays = 0 then 1
            else (appIgRow cols cat now r).plays : Int) : ℚ) :=
  rfl

theorem ttRow_score (cols : List String) (useId : Bool) (cat : String) (now : ℚ) (r : Row) :
    (ttRow cols useId cat now r).engagement_score =
      (((ttRow cols useId cat now r).likes + 2 * (ttRow cols useId cat now r).comments
          + 3 * (ttRow cols useId cat now r).shares + 2 * (ttRow cols useId cat now r).saves
          + (ttRow cols useId cat now r).upvotes : Int) : ℚ)
        / ((if (ttRow cols useId cat now r).plays = 0 then 1
            else (ttRow cols useId cat now r).plays : Int) : ℚ) :=
  rfl

theorem rdRow_score (cols : List String) (cat : String) (now : ℚ) (r : Row) :
    (rdRow cols cat now r).engagement_score =
      (((rdRow cols cat now r).likes + 2 * (rdRow cols cat now r).comments
          + 3 * (rdRow cols cat now r).shares + 2 * (rdRow cols cat now r).saves
          + (rdRow cols cat now r).upvotes : Int) : ℚ)
        / ((if (rdRow cols cat now r).plays = 0 then 1 else (rdRow cols cat now r).plays : Int) : ℚ) :=
  rfl

theorem rdRow_vel (cols : List String) (cat : String) (now : ℚ) (r : Row) :
    (rdRow cols cat now r).velocity =
      match (rdRow cols cat now r).hours_since_post with
      | some h => (((rdRow cols cat now r).likes + (rdRow cols cat now r).comments
          + (rdRow cols cat now r).shares + (rdRow cols cat now r).saves
          + (rdRow cols cat now r).upvotes : Int) : ℚ) / h
      | none => 0 :=
  rfl

/-- In the Instagram CSV adapter the clip is applied inside `Option.map`,
so whenever the hours value is present it is at least the floor. -/
theorem igRow_hours_floor (cols : List String) (cat : String) (now : ℚ) (r : Row) {h : ℚ}
    (hh : (igRow cols cat now r).hours_since_post = some h) : 1 / 100 ≤ h := by
  have hh2 : ((parse_timestamp (dfRowGet cols r "timestamp" Val.null)).map
      (fun t => (now - t) / 3600)).map (fun x => max x (1 / 100)) = some h := hh
  rcases Option.map_eq_some'.mp hh2 with ⟨h0, _, rfl⟩
  exact le_max_right _ _

theorem rdRow_hours_floor (cols : List String) (cat : String) (now : ℚ) (r : Row) {h : ℚ}
    (hh : (rdRow cols cat now r).hours_since_post = some h) : 1 / 100 ≤ h := by
  have hh2 : (((if "scrapedAt" ∈ cols then
      (match parse_timestamp (dfRowGet cols r "createdAt" Val.null) with
       | none => parse_timestamp ((rowGet r "scrapedAt").getD Val.null)
       | some t => some t)
    else parse_timestamp (dfRowGet cols r "createdAt" Val.null)).map
      (fun t => (now - t) / 3600)).map (fun x => max x (1 / 100))) = some h := hh
  rcases Option.map_eq_some'.mp hh2 with ⟨h0, _, rfl⟩
  exact le_max_right _ _

theorem ttRow_hours_floor (cols : List String) (useId : Bool) (cat : String) (now : ℚ) (r : Row) :
    ∃ h, (ttRow cols useId cat now r).hours_since_post = some h ∧ 1 / 100 ≤ h :=
  ⟨_, rfl, le_max_right _ _⟩

theorem appIgRow_hours_floor (cols : List String) (cat : String) (now : ℚ) (r : Row) :
    ∃ h, (appIgRow cols cat now r).hours_since_post = some h ∧ 1 / 100 ≤ h :=
  ⟨_, rfl, le_max_right _ _⟩

/-- Numerator/denominator sign facts for the shared scoring formula. -/
theorem score_formula_nonneg {likes comments shares saves upvotes plays : Int}
    (hl : 0 ≤ likes) (hc : 0 ≤ comments) (hs : 0 ≤ shares) (hv : 0 ≤ saves)
    (hu : 0 ≤ upvotes) (hp : 0 ≤ plays) :
    0 ≤ ((likes + 2 * comments + 3 * shares + 2 * saves + upvotes : Int) : ℚ)
        / ((if plays = 0 then 1 else plays : Int) : ℚ) := by
  apply div_nonneg
  · have hnum : (0 : Int) ≤ likes + 2 * comments + 3 * shares + 2 * saves + upvotes := by
      linarith
    exact_mod_cast hnum
  · by_cases h0 : plays = 0
    · simp [h0]
    · rw [if_neg h0]
      exact_mod_cast hp

theorem score_denom_ne_zero (plays : Int) :
    ((if plays = 0 then 1 else plays : Int) : ℚ) ≠ 0 := by
  by_cases h0 : plays = 0
  · simp [h0]
  · rw [if_neg h0]
    exact_mod_cast h0

theorem total_nonneg {likes comments shares saves upvotes : Int}
    (hl : 0 ≤ likes) (hc : 0 ≤ comments) (hs : 0 ≤ shares) (hv : 0 ≤ saves) (hu : 0 ≤ upvotes) :
    (0 : ℚ) ≤ ((likes + comments + shares + saves + upvotes : Int) : ℚ) := by
  have : (0 : Int) ≤ likes + comments + shares + saves + upvotes := by linarith
  exact_mod_cast this

theorem ttRow_vel (cols : List String) (useId : Bool) (cat : String) (now : ℚ) (r : Row) :
    (ttRow cols useId cat now r).velocity =
      match (ttRow cols useId cat now r).hours_since_post with
      | some h => (((ttRow cols useId cat now r).likes + (ttRow cols useId cat now r).comments
          + (ttRow cols useId cat now r).shares + (ttRow cols useId cat now r).saves
          + (ttRow cols useId cat now r).upvotes : Int) : ℚ) / h
      | none => 0 :=
  rfl

theorem appIgRow_vel (cols : List String) (cat : String) (now : ℚ) (r : Row) :
    (appIgRow cols cat now r).velocity =
      match (appIgRow cols cat now r).hours_since_post with
      | some h => (((appIgRow cols cat now r).likes + (appIgRow cols cat now r).comments
          + (appIgRow cols cat now r).shares + (appIgRow cols cat now r).saves
          + (appIgRow cols cat now r).upvotes : Int) : ℚ) / h
      | none => 0 :=
  rfl

/-! ### Batch idempotence of the URL dedup in the Instagram and TikTok paths -/

/-- With the id-switch off, a TikTok row's url is its filled primary url. -/
theorem ttRow_url_false (cols : List String) (cat : String) (now : ℚ) (r : Row) :
    (ttRow cols false cat now r).url = ttPrimaryUrl cols r :=
  rfl

/-- Dedup over a mapped batch is unchanged when a row mapping to an
already-seen url is dropped. -/
theorem dedup_map_drop (f : Row → CRec) (l1 l2 : List Row) (x : Row)
    (h : (f x).url ∈ l1.map (fun r => (f r).url)) :
    dedupByUrl ((l1 ++ x :: l2).map f) = dedupByUrl ((l1 ++ l2).map f) := by
  unfold dedupByUrl
  simp only [List.map_append, List.map_cons]
  apply dedupByUrlAux_drop
  right
  rw [List.map_map]
  exact h

/-- Dropping a row whose resolved url already occurred earlier leaves
`clean_instagram_df` unchanged. -/
theorem ig_idem (cols : List String) (rows1 rows2 : List Row) (x : Row) (cat : String) (now : ℚ)
    (h : (igRow cols cat now x).url ∈ rows1.map (fun r0 => (igRow cols cat now r0).url)) :
    clean_instagram_df { cols := cols, rows := rows1 ++ x :: rows2 } cat now
      = clean_instagram_df { cols := cols, rows := rows1 ++ rows2 } cat now := by
  unfold clean_instagram_df
  exact dedup_map_drop _ rows1 rows2 x h

/-- Dropping a row whose resolved url already occurred earlier leaves
`clean_tiktok_df` unchanged (the batch-level id-fallback switch is shown
to be unaffected by the drop). -/
theorem tt_idem (cols : List String) (rows1 rows2 : List Row) (x : Row) (cat : String) (now : ℚ)
    (h : (ttRow cols (ttUseId cols (rows1 ++ x :: rows2)) cat now x).url
      ∈ rows1.map (fun r0 => (ttRow cols (ttUseId cols (rows1 ++ x :: rows2)) cat now r0).url)) :
    clean_tiktok_df { cols := cols, rows := rows1 ++ x :: rows2 } cat now
      = clean_tiktok_df { cols := cols, rows := rows1 ++ rows2 } cat now := by
  cases rows1 with
  | nil => simp at h
  | cons a t =>
    have hswitch : ttUseId cols ((a :: t) ++ x :: rows2) = ttUseId cols ((a :: t) ++ rows2) := by
      by_cases hx : ttPrimaryUrl cols x = ""
      · unfold ttUseId
        congr 1
        simp [List.all_append, hx]
      · have hA : ((a :: t) ++ x :: rows2).all (fun r => ttPrimaryUrl cols r == "") = false := by
          cases hval : ((a :: t) ++ x :: rows2).all (fun r => ttPrimaryUrl cols r == "") with
          | false => rfl
          | true =>
            exact absurd (beq_iff_eq.mp (List.all_eq_true.mp hval x
              (List.mem_append_right _ (List.mem_cons_self _ _)))) hx
        have huse : ttUseId cols ((a :: t) ++ x :: rows2) = false := by
          unfold ttUseId
          rw [hA]
          rfl
        rw [huse] at h
        have h2 : ttPrimaryUrl cols x ∈ (a :: t).map (fun r0 => ttPrimaryUrl cols r0) := h
        rcases List.mem_map.mp h2 with ⟨r0, hr0, hr0eq⟩
        have hB : ((a :: t) ++ rows2).all (fun r => ttPrimaryUrl cols r == "") = false := by
          cases hval : ((a :: t) ++ rows2).all (fun r => ttPrimaryUrl cols r == "") with
          | false => rfl
          | true =>
            exact absurd (beq_iff_eq.mp (List.all_eq_true.mp hval r0
              (List.mem_append_left _ hr0))) (fun hz => hx (hr0eq ▸ hz))
        rw [huse]
        unfold ttUseId
        rw [hB]
        rfl
    rw [hswitch] at h
    unfold clean_tiktok_df
    rw [if_neg (by simp), if_neg (by simp)]
    rw [show ({ cols := cols, rows := (a :: t) ++ x :: rows2 } : DF).rows = (a :: t) ++ x :: rows2 from rfl]
    rw [show ({ cols := cols, rows := (a :: t) ++ x :: rows2 } : DF).cols = cols from rfl]
    rw [show ({ cols := cols, rows := (a :: t) ++ rows2 } : DF).rows = (a :: t) ++ rows2 from rfl]
    rw [hswitch]
    exact dedup_map_drop _ (a :: t) rows2 x h

/-! ### C1 — per-batch URL deduplication contract -/

/-- C1 counterexample: `clean_reddit_df` applies no URL deduplication.
A Reddit batch repeating url "u" yields two output records for that url
(with differing field values), so the "exactly one record per distinct
resolved url" contract fails for the Reddit normalization. -/
theorem C1_counterexample :
    ((clean_reddit_df (DF.mk ["url", "upVotes"]
        [[("url", Val.str "u"), ("upVotes", Val.num 1)],
         [("url", Val.str "u"), ("upVotes", Val.num 2)]]) "c" 0).map
        (fun r => (r.url, r.upvotes)) = [("u", 1), ("u", 2)])
      ∧ ¬ ((clean_reddit_df (DF.mk ["url", "upVotes"]
        [[("url", Val.str "u"), ("upVotes", Val.num 1)],
         [("url", Val.str "u"), ("upVotes", Val.num 2)]]) "c" 0).map
        (fun r => r.url)).Nodup := by
  constructor
  · decide
  · decide

/-- C1 (amended): the dedup contract holds for the Instagram and TikTok
normalizations: output urls are pairwise distinct; for every url the
surviving record is the first record of the adapter output carrying it;
and dropping a later record whose resolved url already occurred earlier
in the batch leaves the output unchanged (idempotence of dedup).
`clean_reddit_df` (and so `clean_reddit_items`) performs no URL
deduplication, so the contract does not extend to Reddit. -/
theorem C1_theorem :
    (∀ df cat now, ((clean_instagram_df df cat now).map (fun r => r.url)).Nodup)
    ∧ (∀ df cat now, ((clean_tiktok_df df cat now).map (fun r => r.url)).Nodup)
    ∧ (∀ df cat now u, (clean_instagram_df df cat now).find? (fun r => r.url == u)
        = (df.rows.map (igRow df.cols cat now)).find? (fun r => r.url == u))
    ∧ (∀ cols rows1 rows2 x cat now,
        (igRow cols cat now x).url ∈ rows1.map (fun r0 => (igRow cols cat now r0).url) →
        clean_instagram_df { cols := cols, rows := rows1 ++ x :: rows2 } cat now
          = clean_instagram_df { cols := cols, rows := rows1 ++ rows2 } cat now)
    ∧ (∀ cols rows1 rows2 x cat now,
        (ttRow cols (ttUseId cols (rows1 ++ x :: rows2)) cat now x).url
            ∈ rows1.map (fun r0 => (ttRow cols (ttUseId cols (rows1 ++ x :: rows2)) cat now r0).url) →
        clean_tiktok_df { cols := cols, rows := rows1 ++ x :: rows2 } cat now
          = clean_tiktok_df { cols := cols, rows := rows1 ++ rows2 } cat now) := by
  refine ⟨?_, ?_, ?_, ?_, ?_⟩
  · intro df cat now
    exact dedupByUrl_url_nodup _
  · intro df cat now
    unfold clean_tiktok_df
    by_cases he : df.rows.isEmpty
    · rw [if_pos he]
      simp
    · rw [if_neg he]
      exact dedupByUrl_url_nodup _
  · intro df cat now u
    exact dedupByUrl_find? _ _
  · exact fun cols rows1 rows2 x cat now h => ig_idem cols rows1 rows2 x cat now h
  · exact fun cols rows1 rows2 x cat now h => tt_idem cols rows1 rows2 x cat now h

/-- C1 witness: the idempotence parts applied to a concrete duplicated
batch. -/
theorem C1_witness :
    (clean_instagram_df (DF.mk ["url"]
        [[("url", Val.str "u")], [("url", Val.str "u"), ("likesCount", Val.num 3)]]) "c" 0
      = clean_instagram_df (DF.mk ["url"] [[("url", Val.str "u")]]) "c" 0)
    ∧ (clean_tiktok_df (DF.mk ["webVideoUrl"]
        [[("webVideoUrl", Val.str "u")], [("webVideoUrl", Val.str "u"), ("diggCount", Val.num 3)]]) "c" 0
      = clean_tiktok_df (DF.mk ["webVideoUrl"] [[("webVideoUrl", Val.str "u")]]) "c" 0) :=
  ⟨C1_theorem.2.2.2.1 ["url"] [[("url", Val.str "u")]] []
      [("url", Val.str "u"), ("likesCount", Val.num 3)] "c" 0 (by decide),
   C1_theorem.2.2.2.2 ["webVideoUrl"] [[("webVideoUrl", Val.str "u")]] []
      [("webVideoUrl", Val.str "u"), ("diggCount", Val.num 3)] "c" 0 (by decide)⟩

/-! ### C10 — unresolvable URLs share the empty dedup key -/

/-- C10: in the Instagram and TikTok batch paths every url value — in
particular the canonical empty string that every unresolvable URL maps to
— keys the dedup, so at most one record with `url = ""` survives, and the
survivor (when any) is exactly the first adapter-output record whose url
is empty; every later empty-url record is dropped. -/
theorem C10_theorem :
    (∀ df cat now u, ((clean_instagram_df df cat now).filter (fun r => r.url == u)).length ≤ 1)
    ∧ (∀ df cat now u, ((clean_tiktok_df df cat now).filter (fun r => r.url == u)).length ≤ 1)
    ∧ (∀ items cat now, ((clean_instagram_items items cat now).filter (fun r => r.url == "")).length ≤ 1)
    ∧ (∀ df cat now, (clean_instagram_df df cat now).find? (fun r => r.url == "")
        = (df.rows.map (igRow df.cols cat now)).find? (fun r => r.url == ""))
    ∧ (∀ df cat now, (clean_tiktok_df df cat now).find? (fun r => r.url == "")
        = (df.rows.map (ttRow df.cols (ttUseId df.cols df.rows) cat now)).find? (fun r => r.url == "")) := by
  refine ⟨?_, ?_, ?_, ?_, ?_⟩
  · intro df cat now u
    exact dedupByUrl_filter_len _ _
  · intro df cat now u
    unfold clean_tiktok_df
    by_cases he : df.rows.isEmpty
    · rw [if_pos he]
      simp
    · rw [if_neg he]
      exact dedupByUrl_filter_len _ _
  · intro items cat now
    unfold clean_instagram_items
    by_cases he : items.isEmpty
    · rw [if_pos he]
      simp
    · rw [if_neg he]
      exact dedupByUrl_filter_len _ _
  · intro df cat now
    exact dedupByUrl_find? _ _
  · intro df cat now
    unfold clean_tiktok_df
    by_cases he : df.rows.isEmpty
    · rw [if_pos he]
      rw [List.isEmpty_iff.mp he]
      rfl
    · rw [if_neg he]
      exact dedupByUrl_find? _ _

/-! ### C9 — empty input batches -/

/-- C9: for every adapter entry point, an empty input batch yields an
empty output without error (the adapters short-circuit on `df.empty`). -/
theorem C9_theorem :
    (∀ cat now, clean_instagram_items [] cat now = [])
    ∧ (∀ cat now, clean_tiktok_items [] cat now = [])
    ∧ (∀ cat now, clean_reddit_items [] cat now = [])
    ∧ (∀ cols cat now, clean_tiktok_df (DF.mk cols []) cat now = []) :=
  ⟨fun _ _ => rfl, fun _ _ => rfl, fun _ _ => rfl, fun _ _ _ => rfl⟩

/-! ### C5 — totality and behavior of the integer coercion -/

/-- C5: `to_int` is total — it returns an integer or missing for every
scalar; commas are stripped from strings ("1,234" to 1234), values are
truncated through float conversion ("12.9" to 12), numbers always coerce
(to truncation toward zero), and missing input or any parse failure
yields missing, not zero. -/
theorem C5_theorem :
    (∀ v, to_int v = none ∨ ∃ n, to_int v = some n)
    ∧ to_int (Val.str "1,234") = some 1234
    ∧ to_int (Val.str "12.9") = some 12
    ∧ to_int Val.null = none
    ∧ to_int (Val.str "12abc") = none
    ∧ to_int (Val.str "") = none
    ∧ to_int (Val.str "None") = none
    ∧ (∀ q, to_int (Val.num q) = some (truncQ q)) := by
  refine ⟨?_, by decide, by decide, by decide, by decide, by decide, by decide, fun q => rfl⟩
  intro v
  cases h : to_int v with
  | none => exact Or.inl rfl
  | some n => exact Or.inr ⟨n, rfl⟩

/-! ### C2 — hours_since_post floor -/

/-- C2 counterexample: in `clean_instagram_df` (and likewise
`clean_reddit_df`) the clip is applied without first filling missing
values, so a record with no timestamp leaves `hours_since_post` missing
in the output — not the 0.01 floor the claim states. -/
theorem C2_counterexample :
    ((clean_instagram_df (DF.mk ["url"] [[("url", Val.str "u")]]) "c" 0).map
        (fun r => r.hours_since_post) = [none])
      ∧ ((clean_reddit_df (DF.mk ["url"] [[("url", Val.str "u")]]) "c" 0).map
        (fun r => r.hours_since_post) = [none]) := by
  constructor
  · decide
  · decide

/-- C2 (amended): in `clean_tiktok_df` and app.py's
`clean_instagram_items` (which `fillna(0)` before clipping),
`hours_since_post` is always present and at least 0.01; in
`clean_instagram_df` and `clean_reddit_df` the floor holds whenever the
timestamp parses (the value, when present, is at least 0.01), but a
missing or unparseable timestamp leaves `hours_since_post` missing. -/
theorem C2_theorem :
    (∀ df cat now r, r ∈ clean_tiktok_df df cat now →
        ∃ h, r.hours_since_post = some h ∧ 1 / 100 ≤ h)
    ∧ (∀ items cat now r, r ∈ clean_instagram_items items cat now →
        ∃ h, r.hours_since_post = some h ∧ 1 / 100 ≤ h)
    ∧ (∀ df cat now r h, r ∈ clean_instagram_df df cat now →
        r.hours_since_post = some h → 1 / 100 ≤ h)
    ∧ (∀ df cat now r h, r ∈ clean_reddit_df df cat now →
        r.hours_since_post = some h → 1 / 100 ≤ h) := by
  refine ⟨?_, ?_, ?_, ?_⟩
  · intro df cat now r hr
    rcases mem_clean_tiktok_df hr with ⟨row, _, rfl⟩
    exact ttRow_hours_floor _ _ _ _ _
  · intro items cat now r hr
    rcases mem_clean_instagram_items hr with ⟨row, _, rfl⟩
    exact appIgRow_hours_floor _ _ _ _
  · intro df cat now r h hr hh
    rcases mem_clean_instagram_df hr with ⟨row, _, rfl⟩
    exact igRow_hours_floor _ _ _ _ hh
  · intro df cat now r h hr hh
    rcases mem_clean_reddit_df hr with ⟨row, _, rfl⟩
    exact rdRow_hours_floor _ _ _ _ hh

/-- C2 witness: the floor facts at concrete one-record batches. -/
theorem C2_witness :
    (∃ h, (ttRow ["text"] (ttUseId ["text"] [[("text", Val.str "x")]]) "c" 0
        [("text", Val.str "x")]).hours_since_post = some h ∧ 1 / 100 ≤ h)
    ∧ (1 / 100 : ℚ) ≤ 1 :=
  ⟨C2_theorem.1 (DF.mk ["text"] [[("text", Val.str "x")]]) "c" 0 _ (by decide),
   C2_theorem.2.2.1 (DF.mk ["url", "timestamp"]
       [[("url", Val.str "u"), ("timestamp", Val.num 1700000000)]]) "c" 1700003600
       (igRow ["url", "timestamp"] "c" 1700003600
         [("url", Val.str "u"), ("timestamp", Val.num 1700000000)])
       1 (by decide) (by decide)⟩

/-! ### C3 — the shared scoring formula -/

/-- C3: in all three platform adapters (and the app.py Instagram items
path), every output record satisfies, over the missing-to-0 resolved
counts that the record itself carries:
`engagement_score = (likes + 2*comments + 3*shares + 2*saves + upvotes) / denom`
with `denom = plays if plays != 0 else 1`, and
`velocity = (likes + comments + shares + saves + upvotes) / hours_since_post`
whenever `hours_since_post` is present (and 0 when it is missing, per the
`velocity.fillna(0)` step).  The weights and plays-normalization are the
same formula in all adapters. -/
theorem C3_theorem :
    (∀ df cat now r, r ∈ clean_instagram_df df cat now →
      (r.engagement_score = ((r.likes + 2 * r.comments + 3 * r.shares + 2 * r.saves + r.upvotes : Int) : ℚ)
          / ((if r.plays = 0 then 1 else r.plays : Int) : ℚ))
        ∧ (∀ h, r.hours_since_post = some h →
            r.velocity = ((r.likes + r.comments + r.shares + r.saves + r.upvotes : Int) : ℚ) / h)
        ∧ (r.hours_since_post = none → r.velocity = 0))
    ∧ (∀ df cat now r, r ∈ clean_tiktok_df df cat now →
      (r.engagement_score = ((r.likes + 2 * r.comments + 3 * r.shares + 2 * r.saves + r.upvotes : Int) : ℚ)
          / ((if r.plays = 0 then 1 else r.plays : Int) : ℚ))
        ∧ (∀ h, r.hours_since_post = some h →
            r.velocity = ((r.likes + r.comments + r.shares + r.saves + r.upvotes : Int) : ℚ) / h))
    ∧ (∀ df cat now r, r ∈ clean_reddit_df df cat now →
      (r.engagement_score = ((r.likes + 2 * r.comments + 3 * r.shares + 2 * r.saves + r.upvotes : Int) : ℚ)
          / ((if r.plays = 0 then 1 else r.plays : Int) : ℚ))
        ∧ (∀ h, r.hours_since_post = some h →
            r.velocity = ((r.likes + r.comments + r.shares + r.saves + r.upvotes : Int) : ℚ) / h)
        ∧ (r.hours_since_post = none → r.velocity = 0))
    ∧ (∀ items cat now r, r ∈ clean_instagram_items items cat now →
      (r.engagement_score = ((r.likes + 2 * r.comments + 3 * r.shares + 2 * r.saves + r.upvotes : Int) : ℚ)
          / ((if r.plays = 0 then 1 else r.plays : Int) : ℚ))
        ∧ (∀ h, r.hours_since_post = some h →
            r.velocity = ((r.likes + r.comments + r.shares + r.saves + r.upvotes : Int) : ℚ) / h)) := by
  refine ⟨?_, ?_, ?_, ?_⟩
  · intro df cat now r hr
    rcases mem_clean_instagram_df hr with ⟨row, _, rfl⟩
    refine ⟨igRow_score _ _ _ _, ?_, ?_⟩
    · intro h hh
      have hv := igRow_vel df.cols cat now row
      rw [hh] at hv
      exact hv
    · intro hh
      have hv := igRow_vel df.cols cat now row
      rw [hh] at hv
      exact hv
  · intro df cat now r hr
    rcases mem_clean_tiktok_df hr with ⟨row, _, rfl⟩
    refine ⟨ttRow_score _ _ _ _ _, ?_⟩
    intro h hh
    have hv := ttRow_vel df.cols (ttUseId df.cols df.rows) cat now row
    rw [hh] at hv
    exact hv
  · intro df cat now r hr
    rcases mem_clean_reddit_df hr with ⟨row, _, rfl⟩
    refine ⟨rdRow_score _ _ _ _, ?_, ?_⟩
    · intro h hh
      have hv := rdRow_vel df.cols cat now row
      rw [hh] at hv
      exact hv
    · intro hh
      have hv := rdRow_vel df.cols cat now row
      rw [hh] at hv
      exact hv
  · intro items cat now r hr
    rcases mem_clean_instagram_items hr with ⟨row, _, rfl⟩
    refine ⟨appIgRow_score _ _ _ _, ?_⟩
    intro h hh
    have hv := appIgRow_vel (dfColumns items) cat now row
    rw [hh] at hv
    exact hv

/-- C3 witness: the formula at a concrete TikTok record with plays = 200
and one hour elapsed. -/
theorem C3_witness :
    (ttRow ["diggCount", "playCount", "webVideoUrl", "createTime"]
        (ttUseId ["diggCount", "playCount", "webVideoUrl", "createTime"]
          [[("diggCount", Val.num 100), ("playCount", Val.num 200),
            ("webVideoUrl", Val.str "u"), ("createTime", Val.num 1700000000)]])
        "c" 1700003600
        [("diggCount", Val.num 100), ("playCount", Val.num 200),
          ("webVideoUrl", Val.str "u"), ("createTime", Val.num 1700000000)]).engagement_score
      = ((100 + 2 * 0 + 3 * 0 + 2 * 0 + 0 : Int) : ℚ) / ((200 : Int) : ℚ) := by
  have hmem := C3_theorem.2.1 (DF.mk ["diggCount", "playCount", "webVideoUrl", "createTime"]
      [[("diggCount", Val.num 100), ("playCount", Val.num 200),
        ("webVideoUrl", Val.str "u"), ("createTime", Val.num 1700000000)]]) "c" 1700003600
      (ttRow ["diggCount", "playCount", "webVideoUrl", "createTime"]
        (ttUseId ["diggCount", "playCount", "webVideoUrl", "createTime"]
          [[("diggCount", Val.num 100), ("playCount", Val.num 200),
            ("webVideoUrl", Val.str "u"), ("createTime", Val.num 1700000000)]])
        "c" 1700003600
        [("diggCount", Val.num 100), ("playCount", Val.num 200),
          ("webVideoUrl", Val.str "u"), ("createTime", Val.num 1700000000)])
      (by decide)
  rw [hmem.1]
  decide

/-! ### C4 — sign and definedness of the scores -/

/-- C4 counterexample: the coercion passes negative source counts
through unchanged, so an Instagram record with `likesCount = -10` gets
`engagement_score = velocity = -10`, violating the claimed
nonnegativity "for arbitrary scalar source values of the count fields". -/
theorem C4_counterexample :
    ((clean_instagram_df (mkDF [[("likesCount", Val.num (-10)), ("url", Val.str "u"),
        ("timestamp", Val.num 1700000000)]]) "c" 1700003600).map
        (fun r => (r.engagement_score, r.velocity)) = [(-10, -10)])
      ∧ ¬ ((0 : ℚ) ≤ -10) := by
  constructor
  · decide
  · decide

/-- C4 (amended): the scores are always well defined — the plays
denominator is never zero, `hours_since_post` is strictly positive
whenever present, and a missing hours value forces `velocity = 0`
(`fillna(0)`); and `engagement_score ≥ 0` and `velocity ≥ 0` hold
whenever the record's resolved counts are all nonnegative (which is the
case exactly when the sources are nonnegative or missing).  With
negative source counts the scores can be negative (see the
counterexample). -/
theorem C4_theorem :
    (∀ df cat now r, r ∈ clean_instagram_df df cat now →
        ((if r.plays = 0 then 1 else r.plays : Int) : ℚ) ≠ 0
        ∧ (∀ h, r.hours_since_post = some h → 0 < h)
        ∧ (r.hours_since_post = none → r.velocity = 0)
        ∧ (0 ≤ r.likes → 0 ≤ r.comments → 0 ≤ r.shares → 0 ≤ r.saves → 0 ≤ r.upvotes →
            0 ≤ r.plays → 0 ≤ r.engagement_score ∧ 0 ≤ r.velocity))
    ∧ (∀ df cat now r, r ∈ clean_tiktok_df df cat now →
        ((if r.plays = 0 then 1 else r.plays : Int) : ℚ) ≠ 0
        ∧ (∀ h, r.hours_since_post = some h → 0 < h)
        ∧ (0 ≤ r.likes → 0 ≤ r.comments → 0 ≤ r.shares → 0 ≤ r.saves → 0 ≤ r.upvotes →
            0 ≤ r.plays → 0 ≤ r.engagement_score ∧ 0 ≤ r.velocity))
    ∧ (∀ df cat now r, r ∈ clean_reddit_df df cat now →
        ((if r.plays = 0 then 1 else r.plays : Int) : ℚ) ≠ 0
        ∧ (∀ h, r.hours_since_post = some h → 0 < h)
        ∧ (r.hours_since_post = none → r.velocity = 0)
        ∧ (0 ≤ r.likes → 0 ≤ r.comments → 0 ≤ r.shares → 0 ≤ r.saves → 0 ≤ r.upvotes →
            0 ≤ r.plays → 0 ≤ r.engagement_score ∧ 0 ≤ r.velocity)) := by
  refine ⟨?_, ?_, ?_⟩
  · intro df cat now r hr
    rcases mem_clean_instagram_df hr with ⟨row, _, rfl⟩
    refine ⟨score_denom_ne_zero _, ?_, ?_, ?_⟩
    · intro h hh
      exact lt_of_lt_of_le (by norm_num) (igRow_hours_floor _ _ _ _ hh)
    · intro hh
      have hv := igRow_vel df.cols cat now row
      rw [hh] at hv
      exact hv
    · intro hl hc hs hv0 hu hp
      constructor
      · rw [igRow_score]
        exact score_formula_nonneg hl hc hs hv0 hu hp
      · have hv := igRow_vel df.cols cat now row
        cases hh : (igRow df.cols cat now row).hours_since_post with
        | none =>
          rw [hh] at hv
          rw [hv]
        | some h =>
          rw [hh] at hv
          rw [hv]
          apply div_nonneg (total_nonneg hl hc hs hv0 hu)
          exact le_of_lt (lt_of_lt_of_le (by norm_num) (igRow_hours_floor _ _ _ _ hh))
  · intro df cat now r hr
    rcases mem_clean_tiktok_df hr with ⟨row, _, rfl⟩
    refine ⟨score_denom_ne_zero _, ?_, ?_⟩
    · intro h hh
      rcases ttRow_hours_floor df.cols (ttUseId df.cols df.rows) cat now row with ⟨h0, hh0, hfl⟩
      rw [hh0] at hh
      cases hh
      exact lt_of_lt_of_le (by norm_num) hfl
    · intro hl hc hs hv0 hu hp
      constructor
      · rw [ttRow_score]
        exact score_formula_nonneg hl hc hs hv0 hu hp
      · rcases ttRow_hours_floor df.cols (ttUseId df.cols df.rows) cat now row with ⟨h0, hh0, hfl⟩
        have hv := ttRow_vel df.cols (ttUseId df.cols df.rows) cat now row
        rw [hh0] at hv
        rw [hv]
        apply div_nonneg (total_nonneg hl hc hs hv0 hu)
        exact le_of_lt (lt_of_lt_of_le (by norm_num) hfl)
  · intro df cat now r hr
    rcases mem_clean_reddit_df hr with ⟨row, _, rfl⟩
    refine ⟨score_denom_ne_zero _, ?_, ?_, ?_⟩
    · intro h hh
      exact lt_of_lt_of_le (by norm_num) (rdRow_hours_floor _ _ _ _ hh)
    · intro hh
      have hv := rdRow_vel df.cols cat now row
      rw [hh] at hv
      exact hv
    · intro hl hc hs hv0 hu hp
      constructor
      · rw [rdRow_score]
        exact score_formula_nonneg hl hc hs hv0 hu hp
      · have hv := rdRow_vel df.cols cat now row
        cases hh : (rdRow df.cols cat now row).hours_since_post with
        | none =>
          rw [hh] at hv
          rw [hv]
        | some h =>
          rw [hh] at hv
          rw [hv]
          apply div_nonneg (total_nonneg hl hc hs hv0 hu)
          exact le_of_lt (lt_of_lt_of_le (by norm_num) (rdRow_hours_floor _ _ _ _ hh))

/-- C4 witness: the nonnegativity conclusion at a concrete Instagram
record whose counts resolve nonnegative and whose plays is 0. -/
theorem C4_witness :
    0 ≤ (igRow ["likesCount", "url"] "c" 0 [("likesCount", Val.num 7), ("url", Val.str "u")]).engagement_score
    ∧ 0 ≤ (igRow ["likesCount", "url"] "c" 0 [("likesCount", Val.num 7), ("url", Val.str "u")]).velocity :=
  (C4_theorem.1 (DF.mk ["likesCount", "url"] [[("likesCount", Val.num 7), ("url", Val.str "u")]])
      "c" 0 (igRow ["likesCount", "url"] "c" 0 [("likesCount", Val.num 7), ("url", Val.str "u")])
      (by decide)).2.2.2 (by decide) (by decide) (by decide) (by decide) (by decide) (by decide)

/-! ### C6 — timestamp parsing heuristic -/

/-- C6 counterexample: a numeric value at or below 1e9 does fall through
to the generic parser, but pandas interprets a bare number there as an
epoch count in its default nanosecond unit — so numeric 5 resolves to an
instant (5ns after the epoch), not to missing as the claim states. -/
theorem C6_counterexample :
    parse_timestamp (Val.num 5) = some (5 / 10 ^ 9)
      ∧ parse_timestamp (Val.num 5) ≠ none := by
  constructor
  · decide
  · decide

/-- C6 (amended): numeric interpretation is tried before string parsing:
missing input stays missing; a numeric value above 1e12 is Unix
milliseconds, else above 1e9 Unix seconds (1700000000000 and 1700000000
— as numbers or numeric strings — both resolve to the same instant); a
numeric (non-string) value at or below 1e9 falls through to the generic
parser which reads it as a nanosecond epoch count, yielding an instant,
not missing; numeric strings at or below 1e9 that the generic parser
cannot read as dates, and unparseable strings generally, resolve to
missing without raising. -/
theorem C6_theorem :
    parse_timestamp Val.null = none
    ∧ parse_timestamp (Val.num 1700000000000) = some 1700000000
    ∧ parse_timestamp (Val.num 1700000000) = some 1700000000
    ∧ parse_timestamp (Val.str "1700000000000") = some 1700000000
    ∧ parse_timestamp (Val.str "1700000000") = some 1700000000
    ∧ (∀ q : ℚ, parse_timestamp (Val.num q) =
        if q > 10 ^ 12 then some ((truncQ q : ℚ) / 1000)
        else if q > 10 ^ 9 then some ((truncQ q : ℚ))
        else some (q / 10 ^ 9))
    ∧ parse_timestamp (Val.str "500") = none
    ∧ parse_timestamp (Val.str "not a date") = none
    ∧ parse_timestamp (Val.str "") = none := by
  refine ⟨by decide, by decide, by decide, by decide, by decide, ?_, by decide, by decide, by decide⟩
  intro q
  show (if q > 10 ^ 12 then some ((truncQ q : ℚ) / 1000)
      else if q > 10 ^ 9 then some ((truncQ q : ℚ))
      else pd_to_datetime_generic (Val.num q)) = _
  by_cases h12 : q > 10 ^ 12
  · rw [if_pos h12, if_pos h12]
  · rw [if_neg h12, if_neg h12]
    by_cases h9 : q > 10 ^ 9
    · rw [if_pos h9, if_pos h9]
    · rw [if_neg h9, if_neg h9]
      rfl

/-! ### C7 — tag joining -/

/-- C7 counterexample: the source uses `lstrip("#")`, which removes
EVERY leading `#`, not a single one: on "##skincare" the code yields
"skincare" while the spec's single-strip reading yields "#skincare". -/
theorem C7_counterexample :
    join_tags [Val.str "##skincare"] = "skincare"
      ∧ join_tags_single_strip [Val.str "##skincare"] = "#skincare"
      ∧ join_tags [Val.str "##skincare"] ≠ join_tags_single_strip [Val.str "##skincare"] := by
  refine ⟨by decide, by decide, by decide⟩

/-- C7 (amended): `join_tags` (and `join_hashtags`) normalizes each
value to a trimmed string, skips missing and empty values, strips ALL
leading `#` characters, deduplicates case-insensitively preserving
first-seen order and casing, and joins with a comma and space; in
particular the claimed example evaluates as stated. -/
theorem C7_theorem :
    join_tags [Val.str "Skincare", Val.str "#skincare", Val.str "Makeup"] = "Skincare, Makeup"
    ∧ join_hashtags [("hashtags/0", Val.str "Skincare"), ("hashtags/1", Val.str "#skincare"),
        ("hashtags/2", Val.str "Makeup")] ["hashtags/0", "hashtags/1", "hashtags/2"]
        = "Skincare, Makeup"
    ∧ join_tags [Val.str "##x"] = "x"
    ∧ (∀ l1 l2, join_tags (l1 ++ Val.null :: l2) = join_tags (l1 ++ l2))
    ∧ join_tags [Val.str "  a  ", Val.str "A", Val.str "b"] = "a, b"
    ∧ join_tags [Val.str "#Glow", Val.str "glow"] = "Glow" := by
  refine ⟨by decide, by decide, by decide, ?_, by decide, by decide⟩
  intro l1 l2
  unfold join_tags
  rw [List.filterMap_append, List.filterMap_append, List.filterMap_cons]
  rfl

/-! ### C8 — fallback-chain field resolution -/

/-- C8 counterexample: the plays fallback chain is resolved at the
column (batch) level, not per record: when the `videoPlayCount` column
exists but holds null for a record, the record's plays resolve to 0 from
that column — not to the 500 in its `igPlayCount`, as per-record
fallback would give. -/
theorem C8_counterexample :
    ((clean_instagram_df (mkDF [[("videoPlayCount", Val.null), ("igPlayCount", Val.num 500)]])
        "c" 0).map (fun r => r.plays) = [0])
      ∧ (0 : Int) ≠ 500 := by
  refine ⟨by decide, by decide⟩

/-- C8 (amended): fallback-chain resolution is mixed rather than
uniformly per record.  The Instagram plays chain selects the FIRST
CANDIDATE COLUMN present in the batch and uses it for every record: a
record with a null in the selected column resolves to 0 without falling
through, `igPlayCount` is consulted only when `videoPlayCount` is absent
from the whole batch (`fbPlayCount` only when both earlier candidates
are), and with no candidate column plays is 0 — so the claimed
per-record example fails (see the counterexample).  The Reddit
url-to-link and createdAt-to-scrapedAt fallbacks, by contrast, are per
record (element-wise `where`): a record whose own url is missing or
blank takes its own link value, and a record whose own createdAt fails
to parse takes its own scrapedAt. -/
theorem C8_theorem :
    (∀ cols, igPlaysCol cols = firstColIn ["videoPlayCount", "igPlayCount", "fbPlayCount"] cols)
    ∧ (∀ cols cat now r, "videoPlayCount" ∈ cols →
        (igRow cols cat now r).plays = (to_int ((rowGet r "videoPlayCount").getD Val.null)).getD 0)
    ∧ (∀ cols cat now r, "videoPlayCount" ∉ cols → "igPlayCount" ∈ cols →
        (igRow cols cat now r).plays = (to_int ((rowGet r "igPlayCount").getD Val.null)).getD 0)
    ∧ (∀ cols cat now r, "videoPlayCount" ∉ cols → "igPlayCount" ∉ cols → "fbPlayCount" ∈ cols →
        (igRow cols cat now r).plays = (to_int ((rowGet r "fbPlayCount").getD Val.null)).getD 0)
    ∧ (∀ cols cat now r, "videoPlayCount" ∉ cols → "igPlayCount" ∉ cols → "fbPlayCount" ∉ cols →
        (igRow cols cat now r).plays = 0)
    ∧ (∀ cols cat now r, "link" ∈ cols →
        (dfRowGet cols r "url" Val.null = Val.null
          ∨ pyTrim (pyStr (dfRowGet cols r "url" Val.null)) = "") →
        (rdRow cols cat now r).url = strFill ((rowGet r "link").getD Val.null))
    ∧ (∀ cols cat now r, "link" ∈ cols →
        dfRowGet cols r "url" Val.null ≠ Val.null →
        pyTrim (pyStr (dfRowGet cols r "url" Val.null)) ≠ "" →
        (rdRow cols cat now r).url = strFill (dfRowGet cols r "url" Val.null))
    ∧ (∀ cols cat now r, "scrapedAt" ∈ cols →
        parse_timestamp (dfRowGet cols r "createdAt" Val.null) = none →
        (rdRow cols cat now r).timestamp = parse_timestamp ((rowGet r "scrapedAt").getD Val.null))
    ∧ (∀ cols cat now r t, "scrapedAt" ∈ cols →
        parse_timestamp (dfRowGet cols r "createdAt" Val.null) = some t →
        (rdRow cols cat now r).timestamp = some t) := by
  refine ⟨fun cols => rfl, ?_, ?_, ?_, ?_, ?_, ?_, ?_, ?_⟩
  · intro cols cat now r h1
    have hcol : igPlaysCol cols = some "videoPlayCount" := by
      simp only [igPlaysCol, firstColIn]
      rw [if_pos h1]
    show (match igPlaysCol cols with
      | some c => to_int ((rowGet r c).getD Val.null)
      | none => some 0).getD 0 = _
    rw [hcol]
  · intro cols cat now r h1 h2
    have hcol : igPlaysCol cols = some "igPlayCount" := by
      simp only [igPlaysCol, firstColIn]
      rw [if_neg h1, if_pos h2]
    show (match igPlaysCol cols with
      | some c => to_int ((rowGet r c).getD Val.null)
      | none => some 0).getD 0 = _
    rw [hcol]
  · intro cols cat now r h1 h2 h3
    have hcol : igPlaysCol cols = some "fbPlayCount" := by
      simp only [igPlaysCol, firstColIn]
      rw [if_neg h1, if_neg h2, if_pos h3]
    show (match igPlaysCol cols with
      | some c => to_int ((rowGet r c).getD Val.null)
      | none => some 0).getD 0 = _
    rw [hcol]
  · intro cols cat now r h1 h2 h3
    have hcol : igPlaysCol cols = none := by
      simp only [igPlaysCol, firstColIn]
      rw [if_neg h1, if_neg h2, if_neg h3]
    show (match igPlaysCol cols with
      | some c => to_int ((rowGet r c).getD Val.null)
      | none => some 0).getD 0 = _
    rw [hcol]
    rfl
  · intro cols cat now r hlink hcond
    show strFill (if "link" ∈ cols then
        (if dfRowGet cols r "url" Val.null ≠ Val.null
            ∧ pyTrim (pyStr (dfRowGet cols r "url" Val.null)) ≠ ""
         then dfRowGet cols r "url" Val.null
         else (rowGet r "link").getD Val.null)
      else dfRowGet cols r "url" Val.null) = _
    rw [if_pos hlink, if_neg (fun hand => hcond.elim (fun hc => hand.1 hc) (fun hc => hand.2 hc))]
  · intro cols cat now r hlink hne hblank
    show strFill (if "link" ∈ cols then
        (if dfRowGet cols r "url" Val.null ≠ Val.null
            ∧ pyTrim (pyStr (dfRowGet cols r "url" Val.null)) ≠ ""
         then dfRowGet cols r "url" Val.null
         else (rowGet r "link").getD Val.null)
      else dfRowGet cols r "url" Val.null) = _
    rw [if_pos hlink, if_pos ⟨hne, hblank⟩]
  · intro cols cat now r hsc hnone
    show (if "scrapedAt" ∈ cols then
        (match parse_timestamp (dfRowGet cols r "createdAt" Val.null) with
         | none => parse_timestamp ((rowGet r "scrapedAt").getD Val.null)
         | some t => some t)
      else parse_timestamp (dfRowGet cols r "createdAt" Val.null)) = _
    rw [if_pos hsc, hnone]
  · intro cols cat now r t hsc hsome
    show (if "scrapedAt" ∈ cols then
        (match parse_timestamp (dfRowGet cols r "createdAt" Val.null) with
         | none => parse_timestamp ((rowGet r "scrapedAt").getD Val.null)
         | some t => some t)
      else parse_timestamp (dfRowGet cols r "createdAt" Val.null)) = _
    rw [if_pos hsc, hsome]

/-- C8 witness: column-level resolution of plays from `igPlayCount` once
`videoPlayCount` is absent from the batch, and per-record url-to-link
fallback for a Reddit record without a url of its own. -/
theorem C8_witness :
    ((igRow ["igPlayCount"] "c" 0 [("igPlayCount", Val.num 500)]).plays
      = (to_int ((rowGet [("igPlayCount", Val.num 500)] "igPlayCount").getD Val.null)).getD 0)
    ∧ ((rdRow ["link"] "c" 0 [("link", Val.str "https://reddit/x")]).url
      = strFill ((rowGet [("link", Val.str "https://reddit/x")] "link").getD Val.null)) :=
  ⟨C8_theorem.2.2.1 ["igPlayCount"] "c" 0 [("igPlayCount", Val.num 500)] (by decide) (by decide),
   C8_theorem.2.2.2.2.2.1 ["link"] "c" 0 [("link", Val.str "https://reddit/x")]
      (by decide) (Or.inl (by decide))⟩
